import Mathlib

/-!
Verification of the PIV camera-setup calculator
(`camera_and_flow_setup.py`, consumed by `experiment_log_app.py`).

The computation of `calculate_camera_recording` is embedded shallowly:
machine floats become real numbers, and the runtime failures of the source
(ZeroDivisionError from `/`, TypeError from arithmetic on a missing `None`
parameter) are surfaced through `Except`.  The results dict returned by the
source is mirrored as an association list with the literal source keys.
-/

namespace FluidExperiments

noncomputable section

/-- Values stored in the results dict of the source: floats, or the
dominant-jet label string. -/
inductive Val where
  | num (x : ℝ)
  | str (s : String)

/-- Parameters of `calculate_camera_recording` with their default values
(source lines 6-26).  The five secondary-jet parameters are `Option ℝ`
because the presentation shell passes `None` for them in single-jet mode. -/
structure Inputs where
  H_fov : ℝ := (92 - 81) / 100
  z_fov : ℝ := 27.2
  Q0 : ℝ := 1.7
  Ry : ℝ := 1024
  ds : ℝ := 16
  D0 : ℝ := 11 / 1000
  nu : ℝ := 1e-6
  dual_jet : Bool := false
  Q1 : Option ℝ := some 0.55
  D1 : Option ℝ := some (1.3 / 1000)
  L_I : Option ℝ := some 0.05
  H_I : Option ℝ := some 0.10
  x_fov : Option ℝ := some 7.5
  experiment_name : String := "single_jet_test"
  generate_report : Bool := true
  output_dir : String := "experiment_logs"

/-- Runtime failures of the source function: ZeroDivisionError from a zero
divisor, or TypeError from using a missing (`None`) parameter in
arithmetic. -/
inductive CalcErr where
  | zeroDiv
  | typeErr
deriving DecidableEq

/-- Division as in the source: raises (ZeroDivisionError) on a zero
divisor, otherwise yields the real quotient. -/
def ediv (a b : ℝ) : Except CalcErr ℝ :=
  if b = 0 then .error .zeroDiv else .ok (a / b)

/-- Reading a possibly-missing parameter for use in arithmetic: raises
(TypeError) when it is `None`. -/
def getNum (o : Option ℝ) : Except CalcErr ℝ :=
  match o with
  | some x => .ok x
  | none => .error .typeErr

/-- The local variables of the dual-jet branch (source lines 36-45): the
five secondary parameters after extraction, and the derived secondary
quantities. -/
structure DualVals where
  Q1 : ℝ
  D1 : ℝ
  L_I : ℝ
  H_I : ℝ
  x_fov : ℝ
  U1 : ℝ
  Re1 : ℝ
  U1_U0 : ℝ
  D0_D1 : ℝ
  LI_D1 : ℝ
  HI_D0 : ℝ
  eps : ℝ
  Ucz1 : ℝ

/-- The values live at the end of `calculate_camera_recording`, including
the results dict it returns (source lines 111-123).  `dual` is `some`
exactly on the dual-jet path. -/
structure Vals where
  U0 : ℝ
  Ucz0 : ℝ
  Re0 : ℝ
  dual : Option DualVals
  U_ref : ℝ
  dominant_jet : String
  delta_t : ℝ
  fps : ℝ
  results : List (String × Val)

/-- The unconditional part of the results dict (source lines 112-115). -/
def baseDict (U0 Re0 U_ref delta_t fps : ℝ) (dominant_jet : String) :
    List (String × Val) :=
  [("U0", .num U0), ("Re0", .num Re0), ("Uc_ref", .num U_ref),
   ("delta_t", .num delta_t), ("fps", .num fps),
   ("dominant_jet", .str dominant_jet)]

/-- The dual-jet update of the results dict (source lines 117-121), with
the literal source keys, including the misspelled key "HI/D)". -/
def dualDict (dv : DualVals) : List (String × Val) :=
  [("U1", .num dv.U1), ("Re1", .num dv.Re1), ("U1/U0", .num dv.U1_U0),
   ("D0/D1", .num dv.D0_D1), ("LI/DI", .num dv.LI_D1),
   ("HI/D)", .num dv.HI_D0), ("epsilon", .num dv.eps)]

/-- Shallow embedding of the numeric computation of
`calculate_camera_recording` (source lines 29-56) together with the
results dict it builds (lines 111-123).  Every source division goes
through `ediv` and every use of a possibly-`None` secondary parameter
goes through `getNum`, in source evaluation order. -/
def calcVals (i : Inputs) : Except CalcErr Vals := do
  let U0 ← ediv (4 * i.Q0) (1000 * 60 * Real.pi * i.D0 ^ 2)
  let Ucz0 ← ediv (5.8 * U0) i.z_fov
  let Re0 ← ediv (U0 * i.D0) i.nu
  let branch ←
    if i.dual_jet then do
      let q1 ← getNum i.Q1
      let d1 ← getNum i.D1
      let U1 ← ediv (4 * q1) (1000 * 60 * Real.pi * d1 ^ 2)
      let Re1 ← ediv (U1 * d1) i.nu
      let U1_U0 ← ediv U1 U0
      let D0_D1 ← ediv i.D0 d1
      let li ← getNum i.L_I
      let LI_D1 ← ediv li d1
      let hi ← getNum i.H_I
      let HI_D0 ← ediv hi i.D0
      let epsArg1 ← ediv d1 i.D0
      let epsArg2 ← ediv (epsArg1 * U0) U1
      let eps := Real.sqrt epsArg2
      let xf ← getNum i.x_fov
      let Ucz1 ← ediv (5.8 * U1) xf
      let dv : DualVals :=
        ⟨q1, d1, li, hi, xf, U1, Re1, U1_U0, D0_D1, LI_D1, HI_D0, eps, Ucz1⟩
      if Ucz1 > Ucz0 then
        pure (some dv, Ucz1, "Secondary")
      else
        pure (some dv, Ucz0, "Primary")
    else
      pure (none, Ucz0, "Primary")
  let dual := branch.1
  let U_ref := branch.2.1
  let dom := branch.2.2
  let delta_t ← ediv (i.ds * i.H_fov) (i.Ry * U_ref)
  let fps ← ediv 1 delta_t
  pure ⟨U0, Ucz0, Re0, dual, U_ref, dom, delta_t, fps,
    baseDict U0 Re0 U_ref delta_t fps dom ++
      (match dual with
       | some dv => dualDict dv
       | none => [])⟩

/-- Values of the secondary-jet and ratio sections of the report
(source lines 78-93), one field per interpolated placeholder. -/
structure DualBlock where
  x_fov : ℝ
  Q1 : ℝ
  D1_mm : ℝ
  U1 : ℝ
  Ucz1 : ℝ
  Re1 : ℝ
  U1_U0 : ℝ
  D0_D1 : ℝ
  LI_D1 : ℝ
  HI_D0 : ℝ
  eps : ℝ

/-- The data interpolated into the summary report text (source lines
59-101), one field per placeholder in source order; the rendered string is
a fixed template around these values. -/
structure Summary where
  now : String
  experiment_name : String
  H_fov : ℝ
  z_fov : ℝ
  Ry : ℝ
  ds : ℝ
  nu : ℝ
  Q0 : ℝ
  D0_mm : ℝ
  U0 : ℝ
  Ucz0 : ℝ
  Re0 : ℝ
  dualBlock : Option DualBlock
  dominant_jet : String
  U_ref : ℝ
  delta_t_us : ℝ
  fps : ℝ

/-- Assembles the summary report data (source lines 59-101) from the
inputs and the computed values.  `now` is the wall-clock reading of
source line 61. -/
def mkSummary (now : String) (i : Inputs) (v : Vals) : Summary :=
  { now := now
    experiment_name := i.experiment_name
    H_fov := i.H_fov
    z_fov := i.z_fov
    Ry := i.Ry
    ds := i.ds
    nu := i.nu
    Q0 := i.Q0
    D0_mm := i.D0 * 1000
    U0 := v.U0
    Ucz0 := v.Ucz0
    Re0 := v.Re0
    dualBlock := v.dual.map fun dv =>
      ⟨dv.x_fov, dv.Q1, dv.D1 * 1000, dv.U1, dv.Ucz1, dv.Re1,
       dv.U1_U0, dv.D0_D1, dv.LI_D1, dv.HI_D0, dv.eps⟩
    dominant_jet := v.dominant_jet
    U_ref := v.U_ref
    delta_t_us := v.delta_t * 1e6
    fps := v.fps }

/-- The report filename of source line 106:
`<experiment_name>_<stamp>.txt`. -/
def reportFileName (name stamp : String) : String :=
  name ++ "_" ++ stamp ++ ".txt"

/-- Full model of `calculate_camera_recording`.  `now` and `stamp` are the
two `datetime.datetime.now()` readings (report header, source line 61, and
filename, source line 106).  The first component of the output triple is
the actual return value of the source function, namely the results dict
alone (lines 111-123); the summary data and the optionally written file
path are its other observable outputs (the summary string, and the saved
report whose path is printed on line 109). -/
def calculate_camera_recording (now stamp : String) (i : Inputs) :
    Except CalcErr (List (String × Val) × Summary × Option String) :=
  (calcVals i).map fun v =>
    (v.results, mkSummary now i v,
     if i.generate_report then
       some (i.output_dir ++ "/" ++ reportFileName i.experiment_name stamp)
     else none)

/-- Tuple unpacking `a, b = d` applied to a dict, as on line 40 of
`experiment_log_app.py`: iterating the dict yields its keys, and the
unpacking succeeds exactly when there are two of them; otherwise the
statement raises ValueError. -/
def pyUnpack2 (d : List (String × Val)) : Option (String × String) :=
  match d with
  | [a, b] => some (a.1, b.1)
  | _ => none

/-! Concrete inputs and the values the calculator derives from them. -/

/-- The default argument values of `calculate_camera_recording`; they are
also the single-jet default scenario of the specification. -/
def I0 : Inputs := {}

/-- The inputs the presentation shell passes on a single-jet
"Compute Setup" click with default form values
(`experiment_log_app.py` lines 39-50): the five secondary parameters
are `None`. -/
def appInputs : Inputs :=
  { experiment_name := "dual_jet_test"
    Q1 := none
    D1 := none
    L_I := none
    H_I := none
    x_fov := none }

/-- Primary exit velocity at the default inputs. -/
def U0v : ℝ := 4 * 1.7 / (1000 * 60 * Real.pi * (11 / 1000) ^ 2)

/-- Primary centerline velocity at the default inputs. -/
def Ucz0v : ℝ := 5.8 * U0v / 27.2

/-- Primary Reynolds number at the default inputs. -/
def Re0v : ℝ := U0v * (11 / 1000) / 1e-6

/-- Inter-frame time at the default inputs. -/
def dtv : ℝ := 16 * ((92 - 81) / 100) / (1024 * Ucz0v)

/-- Sampling rate at the default inputs. -/
def fpsv : ℝ := 1 / dtv

/-- The full value record the calculator produces at the default inputs. -/
def V0 : Vals :=
  ⟨U0v, Ucz0v, Re0v, none, Ucz0v, "Primary", dtv, fpsv,
   baseDict U0v Re0v Ucz0v dtv fpsv "Primary"⟩

/-! A run with negative diameter, resolution and viscosity: every divisor
of the arithmetic is nonzero, so the source raises nothing and completes
with (non-physical) values. -/

/-- Default inputs with the nozzle diameter, vertical resolution and
kinematic viscosity all made negative. -/
def Ineg : Inputs := { D0 := -(11 / 1000), nu := -(1e-6), Ry := -1024 }

/-- Primary exit velocity at the negative inputs. -/
def U0neg : ℝ := 4 * 1.7 / (1000 * 60 * Real.pi * (-(11 / 1000)) ^ 2)

/-- Primary centerline velocity at the negative inputs. -/
def Ucz0neg : ℝ := 5.8 * U0neg / 27.2

/-- Primary Reynolds number at the negative inputs. -/
def Re0neg : ℝ := U0neg * -(11 / 1000) / -(1e-6)

/-- Inter-frame time at the negative inputs. -/
def dtneg : ℝ := 16 * ((92 - 81) / 100) / (-1024 * Ucz0neg)

/-- Sampling rate at the negative inputs. -/
def fpsneg : ℝ := 1 / dtneg

/-- The value record the calculator produces at the negative inputs. -/
def Vneg : Vals :=
  ⟨U0neg, Ucz0neg, Re0neg, none, Ucz0neg, "Primary", dtneg, fpsneg,
   baseDict U0neg Re0neg Ucz0neg dtneg fpsneg "Primary"⟩


/-- Default inputs with report generation turned off. -/
def Inorep : Inputs := { generate_report := false }

/-- Default inputs switched to dual-jet mode with a zero horizontal
field-of-view extent. -/
def Idual0 : Inputs := { dual_jet := true, x_fov := some 0 }

/-! Inversion lemmas: what a successful run tells us about the inputs and
the produced values, one lemma per source branch. -/

/-- Everything a successful single-jet run guarantees: nonzero divisors
and the defining equations of every produced value. -/
structure SingleInv (i : Inputs) (v : Vals) : Prop where
  denom0 : 1000 * 60 * Real.pi * i.D0 ^ 2 ≠ 0
  zfov : i.z_fov ≠ 0
  nuv : i.nu ≠ 0
  ryref : i.Ry * v.U_ref ≠ 0
  dtnz : v.delta_t ≠ 0
  U0_eq : v.U0 = 4 * i.Q0 / (1000 * 60 * Real.pi * i.D0 ^ 2)
  Ucz0_eq : v.Ucz0 = 5.8 * v.U0 / i.z_fov
  Re0_eq : v.Re0 = v.U0 * i.D0 / i.nu
  dual_eq : v.dual = none
  Uref_eq : v.U_ref = v.Ucz0
  dom_eq : v.dominant_jet = "Primary"
  dt_eq : v.delta_t = i.ds * i.H_fov / (i.Ry * v.U_ref)
  fps_eq : v.fps = 1 / v.delta_t
  results_eq : v.results = baseDict v.U0 v.Re0 v.U_ref v.delta_t v.fps "Primary"

/-- Everything a successful dual-jet run guarantees: the five secondary
parameters are present, every divisor is nonzero, and each produced value
satisfies its defining equation, including the dominant-jet selection. -/
structure DualInv (i : Inputs) (v : Vals) (dv : DualVals) : Prop where
  dual_eq : v.dual = some dv
  Q1_eq : i.Q1 = some dv.Q1
  D1_eq : i.D1 = some dv.D1
  LI_eq : i.L_I = some dv.L_I
  HI_eq : i.H_I = some dv.H_I
  xfov_eq : i.x_fov = some dv.x_fov
  denom0 : 1000 * 60 * Real.pi * i.D0 ^ 2 ≠ 0
  zfov : i.z_fov ≠ 0
  nuv : i.nu ≠ 0
  denom1 : 1000 * 60 * Real.pi * dv.D1 ^ 2 ≠ 0
  xfov : dv.x_fov ≠ 0
  ryref : i.Ry * v.U_ref ≠ 0
  dtnz : v.delta_t ≠ 0
  U0_eq : v.U0 = 4 * i.Q0 / (1000 * 60 * Real.pi * i.D0 ^ 2)
  Ucz0_eq : v.Ucz0 = 5.8 * v.U0 / i.z_fov
  Re0_eq : v.Re0 = v.U0 * i.D0 / i.nu
  U1_eq : dv.U1 = 4 * dv.Q1 / (1000 * 60 * Real.pi * dv.D1 ^ 2)
  Re1_eq : dv.Re1 = dv.U1 * dv.D1 / i.nu
  U1U0_eq : dv.U1_U0 = dv.U1 / v.U0
  D0D1_eq : dv.D0_D1 = i.D0 / dv.D1
  LID1_eq : dv.LI_D1 = dv.L_I / dv.D1
  HID0_eq : dv.HI_D0 = dv.H_I / i.D0
  eps_eq : dv.eps = Real.sqrt (dv.D1 / i.D0 * v.U0 / dv.U1)
  Ucz1_eq : dv.Ucz1 = 5.8 * dv.U1 / dv.x_fov
  sec_sel : v.Ucz0 < dv.Ucz1 → v.U_ref = dv.Ucz1 ∧ v.dominant_jet = "Secondary"
  pri_sel : ¬ v.Ucz0 < dv.Ucz1 → v.U_ref = v.Ucz0 ∧ v.dominant_jet = "Primary"
  dt_eq : v.delta_t = i.ds * i.H_fov / (i.Ry * v.U_ref)
  fps_eq : v.fps = 1 / v.delta_t
  results_eq : v.results =
    baseDict v.U0 v.Re0 v.U_ref v.delta_t v.fps v.dominant_jet ++ dualDict dv

/-! Basic lemmas about the embedding monad. -/

theorem ok_bind {α β : Type} (a : α) (f : α → Except CalcErr β) :
    (Except.ok a : Except CalcErr α) >>= f = f a := rfl

theorem error_bind {α β : Type} (e : CalcErr) (f : α → Except CalcErr β) :
    (Except.error e : Except CalcErr α) >>= f = Except.error e := rfl

theorem pure_eq_ok {α : Type} (a : α) :
    (pure a : Except CalcErr α) = Except.ok a := rfl

theorem map_error_eq {α β : Type} (f : α → β) (e : CalcErr) :
    (Except.error e : Except CalcErr α).map f = .error e := rfl

theorem map_ok_eq {α β : Type} (f : α → β) (a : α) :
    (Except.ok a : Except CalcErr α).map f = .ok (f a) := rfl

theorem ediv_ok {a b : ℝ} (h : b ≠ 0) : ediv a b = .ok (a / b) := by
  simp [ediv, h]

theorem ediv_zero {a b : ℝ} (h : b = 0) : ediv a b = .error .zeroDiv := by
  simp [ediv, h]

theorem ediv_ok_inv {a b c : ℝ} (h : ediv a b = .ok c) : b ≠ 0 ∧ c = a / b := by
  by_cases hb : b = 0
  · rw [ediv_zero hb] at h
    cases h
  · rw [ediv_ok hb] at h
    cases h
    exact ⟨hb, rfl⟩

theorem getNum_ok_inv {o : Option ℝ} {x : ℝ} (h : getNum o = .ok x) :
    o = some x := by
  cases o with
  | none => cases h
  | some y => cases h; rfl

theorem bind_ok_inv {α β : Type} {x : Except CalcErr α}
    {f : α → Except CalcErr β} {b : β} (h : x >>= f = .ok b) :
    ∃ a, x = .ok a ∧ f a = .ok b := by
  cases x with
  | error e => rw [error_bind] at h; cases h
  | ok a => exact ⟨a, rfl, h⟩

theorem map_ok_inv {α β : Type} {x : Except CalcErr α} {f : α → β} {b : β}
    (h : x.map f = .ok b) : ∃ a, x = .ok a ∧ f a = b := by
  cases x with
  | error e => cases h
  | ok a => cases h; exact ⟨a, rfl, rfl⟩


theorem U0v_pos : 0 < U0v := by
  unfold U0v
  positivity

theorem Ucz0v_pos : 0 < Ucz0v := by
  unfold Ucz0v
  have := U0v_pos
  positivity

theorem dtv_pos : 0 < dtv := by
  unfold dtv
  have := Ucz0v_pos
  positivity

theorem calcVals_I0 : calcVals I0 = .ok V0 := by
  have h1 : (1000 : ℝ) * 60 * Real.pi * ((11 : ℝ) / 1000) ^ 2 ≠ 0 := by
    positivity
  have h2 : (27.2 : ℝ) ≠ 0 := by norm_num
  have h3 : (1e-6 : ℝ) ≠ 0 := by norm_num
  have h4 : (1024 : ℝ) * Ucz0v ≠ 0 := by
    have := Ucz0v_pos
    positivity
  have h5 : dtv ≠ 0 := ne_of_gt dtv_pos
  rw [show Ucz0v = 5.8 * U0v / 27.2 from rfl, show U0v = 4 * 1.7 /
    (1000 * 60 * Real.pi * ((11 : ℝ) / 1000) ^ 2) from rfl] at h4
  rw [show dtv = 16 * (((92 : ℝ) - 81) / 100) / (1024 * Ucz0v) from rfl,
    show Ucz0v = 5.8 * U0v / 27.2 from rfl, show U0v = 4 * 1.7 /
    (1000 * 60 * Real.pi * ((11 : ℝ) / 1000) ^ 2) from rfl] at h5
  simp only [calcVals, I0, ediv_ok h1, ok_bind]
  simp only [ediv_ok h2, ok_bind, ediv_ok h3]
  simp only [ok_bind, Bool.false_eq_true, if_false, pure_eq_ok]
  simp only [ediv_ok h4, ok_bind, ediv_ok h5]
  rfl

theorem calcVals_app : calcVals appInputs = .ok V0 := by
  have h1 : (1000 : ℝ) * 60 * Real.pi * ((11 : ℝ) / 1000) ^ 2 ≠ 0 := by
    positivity
  have h2 : (27.2 : ℝ) ≠ 0 := by norm_num
  have h3 : (1e-6 : ℝ) ≠ 0 := by norm_num
  have h4 : (1024 : ℝ) * Ucz0v ≠ 0 := by
    have := Ucz0v_pos
    positivity
  have h5 : dtv ≠ 0 := ne_of_gt dtv_pos
  rw [show Ucz0v = 5.8 * U0v / 27.2 from rfl, show U0v = 4 * 1.7 /
    (1000 * 60 * Real.pi * ((11 : ℝ) / 1000) ^ 2) from rfl] at h4
  rw [show dtv = 16 * (((92 : ℝ) - 81) / 100) / (1024 * Ucz0v) from rfl,
    show Ucz0v = 5.8 * U0v / 27.2 from rfl, show U0v = 4 * 1.7 /
    (1000 * 60 * Real.pi * ((11 : ℝ) / 1000) ^ 2) from rfl] at h5
  simp only [calcVals, appInputs, ediv_ok h1, ok_bind]
  simp only [ediv_ok h2, ok_bind, ediv_ok h3]
  simp only [ok_bind, Bool.false_eq_true, if_false, pure_eq_ok]
  simp only [ediv_ok h4, ok_bind, ediv_ok h5]
  rfl

theorem calcVals_single_inv {i : Inputs} {v : Vals} (hd : i.dual_jet = false)
    (h : calcVals i = .ok v) : SingleInv i v := by
  unfold calcVals at h
  rw [hd] at h
  simp only [Bool.false_eq_true, if_false] at h
  obtain ⟨U0, hU0, h⟩ := bind_ok_inv h
  obtain ⟨hb1, hU0e⟩ := ediv_ok_inv hU0
  obtain ⟨Ucz0, hUcz0, h⟩ := bind_ok_inv h
  obtain ⟨hb2, hUcz0e⟩ := ediv_ok_inv hUcz0
  obtain ⟨Re0, hRe0, h⟩ := bind_ok_inv h
  obtain ⟨hb3, hRe0e⟩ := ediv_ok_inv hRe0
  rw [pure_eq_ok, ok_bind] at h
  obtain ⟨dt, hdt, h⟩ := bind_ok_inv h
  obtain ⟨hb4, hdte⟩ := ediv_ok_inv hdt
  obtain ⟨fps, hfps, h⟩ := bind_ok_inv h
  obtain ⟨hb5, hfpse⟩ := ediv_ok_inv hfps
  rw [pure_eq_ok] at h
  cases h
  exact ⟨hb1, hb2, hb3, hb4, hb5, hU0e, hUcz0e, hRe0e, rfl, rfl, rfl,
    hdte, hfpse, by simp [baseDict]⟩

theorem calcVals_dual_inv {i : Inputs} {v : Vals} (hd : i.dual_jet = true)
    (h : calcVals i = .ok v) : ∃ dv : DualVals, DualInv i v dv := by
  unfold calcVals at h
  rw [hd] at h
  simp only [eq_self_iff_true, if_true] at h
  obtain ⟨U0, hU0, h⟩ := bind_ok_inv h
  obtain ⟨hb1, hU0e⟩ := ediv_ok_inv hU0
  obtain ⟨Ucz0, hUcz0, h⟩ := bind_ok_inv h
  obtain ⟨hb2, hUcz0e⟩ := ediv_ok_inv hUcz0
  obtain ⟨Re0, hRe0, h⟩ := bind_ok_inv h
  obtain ⟨hb3, hRe0e⟩ := ediv_ok_inv hRe0
  obtain ⟨q1, hq1, h⟩ := bind_ok_inv h
  obtain ⟨d1, hd1, h⟩ := bind_ok_inv h
  obtain ⟨U1, hU1, h⟩ := bind_ok_inv h
  obtain ⟨hc1, hU1e⟩ := ediv_ok_inv hU1
  obtain ⟨Re1, hRe1, h⟩ := bind_ok_inv h
  obtain ⟨hc2, hRe1e⟩ := ediv_ok_inv hRe1
  obtain ⟨U1_U0, hU1U0, h⟩ := bind_ok_inv h
  obtain ⟨hc3, hU1U0e⟩ := ediv_ok_inv hU1U0
  obtain ⟨D0_D1, hD0D1, h⟩ := bind_ok_inv h
  obtain ⟨hc4, hD0D1e⟩ := ediv_ok_inv hD0D1
  obtain ⟨li, hli, h⟩ := bind_ok_inv h
  obtain ⟨LI_D1, hLID1, h⟩ := bind_ok_inv h
  obtain ⟨hc5, hLID1e⟩ := ediv_ok_inv hLID1
  obtain ⟨hi, hhi, h⟩ := bind_ok_inv h
  obtain ⟨HI_D0, hHID0, h⟩ := bind_ok_inv h
  obtain ⟨hc6, hHID0e⟩ := ediv_ok_inv hHID0
  obtain ⟨epsArg1, hea1, h⟩ := bind_ok_inv h
  obtain ⟨hc7, hea1e⟩ := ediv_ok_inv hea1
  obtain ⟨epsArg2, hea2, h⟩ := bind_ok_inv h
  obtain ⟨hc8, hea2e⟩ := ediv_ok_inv hea2
  obtain ⟨xf, hxf, h⟩ := bind_ok_inv h
  obtain ⟨Ucz1, hUcz1, h⟩ := bind_ok_inv h
  obtain ⟨hc9, hUcz1e⟩ := ediv_ok_inv hUcz1
  by_cases hcmp : Ucz1 > Ucz0
  · rw [if_pos hcmp, pure_eq_ok, ok_bind] at h
    obtain ⟨dt, hdt, h⟩ := bind_ok_inv h
    obtain ⟨hb4, hdte⟩ := ediv_ok_inv hdt
    obtain ⟨fps, hfps, h⟩ := bind_ok_inv h
    obtain ⟨hb5, hfpse⟩ := ediv_ok_inv hfps
    rw [pure_eq_ok] at h
    cases h
    refine ⟨⟨q1, d1, li, hi, xf, U1, Re1, U1_U0, D0_D1, LI_D1, HI_D0,
      Real.sqrt epsArg2, Ucz1⟩, rfl, getNum_ok_inv hq1, getNum_ok_inv hd1,
      getNum_ok_inv hli, getNum_ok_inv hhi, getNum_ok_inv hxf,
      hb1, hb2, hb3, hc1, hc9, hb4, hb5, hU0e, hUcz0e, hRe0e,
      hU1e, hRe1e, hU1U0e, hD0D1e, hLID1e, hHID0e, ?_, hUcz1e,
      fun _ => ⟨rfl, rfl⟩, fun hn => absurd hcmp hn, hdte, hfpse, rfl⟩
    rw [hea2e, hea1e]
  · rw [if_neg hcmp, pure_eq_ok, ok_bind] at h
    obtain ⟨dt, hdt, h⟩ := bind_ok_inv h
    obtain ⟨hb4, hdte⟩ := ediv_ok_inv hdt
    obtain ⟨fps, hfps, h⟩ := bind_ok_inv h
    obtain ⟨hb5, hfpse⟩ := ediv_ok_inv hfps
    rw [pure_eq_ok] at h
    cases h
    refine ⟨⟨q1, d1, li, hi, xf, U1, Re1, U1_U0, D0_D1, LI_D1, HI_D0,
      Real.sqrt epsArg2, Ucz1⟩, rfl, getNum_ok_inv hq1, getNum_ok_inv hd1,
      getNum_ok_inv hli, getNum_ok_inv hhi, getNum_ok_inv hxf,
      hb1, hb2, hb3, hc1, hc9, hb4, hb5, hU0e, hUcz0e, hRe0e,
      hU1e, hRe1e, hU1U0e, hD0D1e, hLID1e, hHID0e, ?_, hUcz1e,
      fun hlt => absurd hlt hcmp, fun _ => ⟨rfl, rfl⟩, hdte, hfpse, rfl⟩
    rw [hea2e, hea1e]

theorem U0neg_pos : 0 < U0neg := by
  unfold U0neg
  positivity

theorem Ucz0neg_pos : 0 < Ucz0neg := by
  unfold Ucz0neg
  have := U0neg_pos
  positivity

theorem dtneg_neg : dtneg < 0 := by
  unfold dtneg
  apply div_neg_of_pos_of_neg
  · norm_num
  · have := Ucz0neg_pos
    nlinarith

theorem calcVals_Ineg : calcVals Ineg = .ok Vneg := by
  have h1 : (1000 : ℝ) * 60 * Real.pi * (-((11 : ℝ) / 1000)) ^ 2 ≠ 0 := by
    positivity
  have h2 : (27.2 : ℝ) ≠ 0 := by norm_num
  have h3 : -(1e-6 : ℝ) ≠ 0 := by norm_num
  have h4 : (-1024 : ℝ) * Ucz0neg ≠ 0 :=
    mul_ne_zero (by norm_num) (ne_of_gt Ucz0neg_pos)
  have h5 : dtneg ≠ 0 := ne_of_lt dtneg_neg
  rw [show Ucz0neg = 5.8 * U0neg / 27.2 from rfl, show U0neg = 4 * 1.7 /
    (1000 * 60 * Real.pi * (-((11 : ℝ) / 1000)) ^ 2) from rfl] at h4
  rw [show dtneg = 16 * (((92 : ℝ) - 81) / 100) / (-1024 * Ucz0neg) from rfl,
    show Ucz0neg = 5.8 * U0neg / 27.2 from rfl, show U0neg = 4 * 1.7 /
    (1000 * 60 * Real.pi * (-((11 : ℝ) / 1000)) ^ 2) from rfl] at h5
  simp only [calcVals, Ineg, ediv_ok h1, ok_bind]
  simp only [ediv_ok h2, ok_bind, ediv_ok h3]
  simp only [ok_bind, Bool.false_eq_true, if_false, pure_eq_ok]
  simp only [ediv_ok h4, ok_bind, ediv_ok h5]
  rfl

/-! Numeric bounds on the derived values at the default (single-jet
scenario) inputs, from rational bounds on pi. -/

theorem U0v_bounds : 0.2981 < U0v ∧ U0v < 0.29818 := by
  have hpi1 : (3.141592 : ℝ) < Real.pi := Real.pi_gt_d6
  have hpi2 : Real.pi < 3.141593 := Real.pi_lt_d6
  have hpi0 : (0 : ℝ) < Real.pi := Real.pi_pos
  have hc : (1000 : ℝ) * 60 * Real.pi * ((11 : ℝ) / 1000) ^ 2 =
      7.26 * Real.pi := by ring
  unfold U0v
  rw [hc]
  constructor
  · rw [lt_div_iff₀ (by positivity)]
    nlinarith
  · rw [div_lt_iff₀ (by positivity)]
    nlinarith

theorem Ucz0v_bounds : 0.0635 < Ucz0v ∧ Ucz0v < 0.0636 := by
  obtain ⟨h1, h2⟩ := U0v_bounds
  unfold Ucz0v
  constructor
  · rw [lt_div_iff₀ (by norm_num)]
    nlinarith
  · rw [div_lt_iff₀ (by norm_num)]
    nlinarith

theorem Re0v_bounds : 3279 < Re0v ∧ Re0v < 3280 := by
  obtain ⟨h1, h2⟩ := U0v_bounds
  have hre : Re0v = 11000 * U0v := by
    unfold Re0v
    rw [div_eq_mul_inv]
    norm_num
    ring
  rw [hre]
  constructor
  · nlinarith
  · nlinarith

theorem dtv_bounds : 0.027 < dtv ∧ dtv < 0.0271 := by
  obtain ⟨h1, h2⟩ := Ucz0v_bounds
  have hp : (0 : ℝ) < 1024 * Ucz0v := by
    have := Ucz0v_pos
    positivity
  unfold dtv
  constructor
  · rw [lt_div_iff₀ hp]
    nlinarith
  · rw [div_lt_iff₀ hp]
    nlinarith

theorem fpsv_bounds : 36.9 < fpsv ∧ fpsv < 37.1 := by
  obtain ⟨h1, h2⟩ := dtv_bounds
  have hp : (0 : ℝ) < dtv := dtv_pos
  unfold fpsv
  constructor
  · rw [lt_div_iff₀ hp]
    nlinarith
  · rw [div_lt_iff₀ hp]
    nlinarith

/-! The claims. -/

/-- C1: the contract says the calculator produces two values, a
DerivedResult record and a SummaryReport string.  The source function
returns the results dict alone, and the call site of the presentation
shell unpacks two values from that single dict, which fails: on the app
single-jet invocation the returned dict has six keys, so the two-target
unpacking yields nothing (raises ValueError). -/
theorem C1_return_is_single_dict :
    (calculate_camera_recording "t" "s" appInputs).map
      (fun o => (o.1.length, pyUnpack2 o.1)) = .ok (6, none) := by
  unfold calculate_camera_recording
  rw [calcVals_app]
  rfl

/-- C2 counterexample: at the default inputs the keys of the returned
record are exactly the six base keys, and "Ucz0" is not one of them,
refuting the claim that `Ucz0` is an unconditional field of the returned
record. -/
theorem C2_no_Ucz0_field :
    (calculate_camera_recording "t" "s" I0).map (fun o => o.1.map Prod.fst) =
      .ok ["U0", "Re0", "Uc_ref", "delta_t", "fps", "dominant_jet"] ∧
    "Ucz0" ∉
      (["U0", "Re0", "Uc_ref", "delta_t", "fps", "dominant_jet"] :
        List String) := by
  refine ⟨?_, by simp⟩
  unfold calculate_camera_recording
  rw [calcVals_I0]
  rfl

/-- C2 (amended): the returned record unconditionally contains exactly
the fields U0, Re0, Uc_ref, delta_t, fps and dominant_jet — Ucz0 is
computed and reported in the summary text but not returned — and the
secondary-jet fields (U1, Re1, the four ratios, and eps) are present
exactly when dual_jet is true. -/
theorem C2_result_fields (now stamp : String) (i : Inputs)
    (out : List (String × Val) × Summary × Option String)
    (h : calculate_camera_recording now stamp i = .ok out) :
    out.1.map Prod.fst =
      ["U0", "Re0", "Uc_ref", "delta_t", "fps", "dominant_jet"] ++
        (if i.dual_jet then
          ["U1", "Re1", "U1/U0", "D0/D1", "LI/DI", "HI/D)", "epsilon"]
        else []) := by
  obtain ⟨v, hv, he⟩ := map_ok_inv h
  subst he
  show v.results.map Prod.fst = _
  cases hd : i.dual_jet with
  | false =>
    have s := calcVals_single_inv hd hv
    rw [s.results_eq]
    simp [baseDict]
  | true =>
    obtain ⟨dv, di⟩ := calcVals_dual_inv hd hv
    rw [di.results_eq]
    simp [baseDict, dualDict]

/-- C2 witness: the field list evaluated at the default (single-jet)
inputs. -/
theorem C2_result_fields_witness :
    ((V0.results, mkSummary "t" I0 V0,
        some (I0.output_dir ++ "/" ++ reportFileName I0.experiment_name "s")) :
      List (String × Val) × Summary × Option String).1.map Prod.fst =
      ["U0", "Re0", "Uc_ref", "delta_t", "fps", "dominant_jet"] ++
        (if I0.dual_jet then
          ["U1", "Re1", "U1/U0", "D0/D1", "LI/DI", "HI/D)", "epsilon"]
        else []) :=
  C2_result_fields "t" "s" I0 _
    (by unfold calculate_camera_recording; rw [calcVals_I0]; rfl)

/-- C3: the dominant jet is "Secondary" exactly when dual-jet mode is
enabled and Ucz1 strictly exceeds Ucz0 (equality yields "Primary"), and
Uc_ref is the centerline velocity of the selected jet: Ucz1 when
Secondary wins, Ucz0 otherwise. -/
theorem C3_dominant_selection (i : Inputs) (v : Vals)
    (h : calcVals i = .ok v) :
    (v.dominant_jet = "Secondary" ↔
      i.dual_jet = true ∧ ∃ dv, v.dual = some dv ∧ v.Ucz0 < dv.Ucz1) ∧
    (∀ dv, v.dual = some dv →
      (v.Ucz0 < dv.Ucz1 → v.U_ref = dv.Ucz1) ∧
      (¬ v.Ucz0 < dv.Ucz1 →
        v.dominant_jet = "Primary" ∧ v.U_ref = v.Ucz0)) ∧
    (v.dominant_jet = "Primary" → v.U_ref = v.Ucz0) := by
  cases hd : i.dual_jet with
  | false =>
    have s := calcVals_single_inv hd h
    refine ⟨?_, ?_, fun _ => s.Uref_eq⟩
    · rw [s.dom_eq]
      constructor
      · intro hx
        exact absurd hx (by decide)
      · rintro ⟨hdd, -⟩
        cases hdd
    · intro dv hdv
      rw [s.dual_eq] at hdv
      cases hdv
  | true =>
    obtain ⟨dv0, di⟩ := calcVals_dual_inv hd h
    by_cases hlt : v.Ucz0 < dv0.Ucz1
    · obtain ⟨hu, hdom⟩ := di.sec_sel hlt
      refine ⟨⟨fun _ => ⟨rfl, dv0, di.dual_eq, hlt⟩, fun _ => hdom⟩, ?_, ?_⟩
      · intro dv hdv
        rw [di.dual_eq] at hdv
        cases hdv
        exact ⟨fun _ => hu, fun hn => absurd hlt hn⟩
      · intro hp
        rw [hdom] at hp
        exact absurd hp (by decide)
    · obtain ⟨hu, hdom⟩ := di.pri_sel hlt
      refine ⟨⟨?_, ?_⟩, ?_, fun _ => hu⟩
      · intro hsec
        rw [hdom] at hsec
        exact absurd hsec (by decide)
      · rintro ⟨-, dv, hdv, hlt2⟩
        rw [di.dual_eq] at hdv
        cases hdv
        exact absurd hlt2 hlt
      · intro dv hdv
        rw [di.dual_eq] at hdv
        cases hdv
        exact ⟨fun h2 => absurd h2 hlt, fun _ => ⟨hdom, hu⟩⟩

/-- C3 witness: at the default single-jet inputs the reference velocity
is the primary centerline velocity. -/
theorem C3_dominant_selection_witness : V0.U_ref = V0.Ucz0 :=
  (C3_dominant_selection I0 V0 calcVals_I0).2.2 rfl

/-- C4: for positive Q0, D0, nu and z_fov, every successful run satisfies
U0 = 4·Q0/(1000·60·pi·D0^2), Ucz0 = 5.8·U0/z_fov and Re0 = U0·D0/nu. -/
theorem C4_primary_formulas (i : Inputs) (v : Vals)
    (_hQ : 0 < i.Q0) (_hD : 0 < i.D0) (_hnu : 0 < i.nu) (_hz : 0 < i.z_fov)
    (h : calcVals i = .ok v) :
    v.U0 = 4 * i.Q0 / (1000 * 60 * Real.pi * i.D0 ^ 2) ∧
    v.Ucz0 = 5.8 * v.U0 / i.z_fov ∧
    v.Re0 = v.U0 * i.D0 / i.nu := by
  cases hd : i.dual_jet with
  | false =>
    have s := calcVals_single_inv hd h
    exact ⟨s.U0_eq, s.Ucz0_eq, s.Re0_eq⟩
  | true =>
    obtain ⟨dv, di⟩ := calcVals_dual_inv hd h
    exact ⟨di.U0_eq, di.Ucz0_eq, di.Re0_eq⟩

/-- C4 witness: the formulas evaluated at the default inputs. -/
theorem C4_primary_formulas_witness :
    V0.U0 = 4 * I0.Q0 / (1000 * 60 * Real.pi * I0.D0 ^ 2) ∧
    V0.Ucz0 = 5.8 * V0.U0 / I0.z_fov ∧
    V0.Re0 = V0.U0 * I0.D0 / I0.nu :=
  C4_primary_formulas I0 V0 (by norm_num [I0]) (by norm_num [I0])
    (by norm_num [I0]) (by norm_num [I0]) calcVals_I0

/-- C5: every successful run satisfies delta_t = ds·H_fov/(Ry·Uc_ref)
and fps = 1/delta_t, hence the round trip fps·delta_t = 1 holds
exactly. -/
theorem C5_timing_roundtrip (i : Inputs) (v : Vals)
    (h : calcVals i = .ok v) :
    v.delta_t = i.ds * i.H_fov / (i.Ry * v.U_ref) ∧
    v.fps = 1 / v.delta_t ∧ v.fps * v.delta_t = 1 := by
  cases hd : i.dual_jet with
  | false =>
    have s := calcVals_single_inv hd h
    exact ⟨s.dt_eq, s.fps_eq, by rw [s.fps_eq]; exact one_div_mul_cancel s.dtnz⟩
  | true =>
    obtain ⟨dv, di⟩ := calcVals_dual_inv hd h
    exact ⟨di.dt_eq, di.fps_eq,
      by rw [di.fps_eq]; exact one_div_mul_cancel di.dtnz⟩

/-- C5 witness: the timing relations evaluated at the default inputs. -/
theorem C5_timing_roundtrip_witness :
    V0.delta_t = I0.ds * I0.H_fov / (I0.Ry * V0.U_ref) ∧
    V0.fps = 1 / V0.delta_t ∧ V0.fps * V0.delta_t = 1 :=
  C5_timing_roundtrip I0 V0 calcVals_I0

/-- C6 counterexample: at the claimed single-jet scenario (the default
inputs) the inter-frame time exceeds 0.02 s — not on the order of
3·10⁻³ s — and the frame rate is below 50 fps, not in the hundreds. -/
theorem C6_timing_magnitude_cex :
    ∃ v, calcVals I0 = .ok v ∧ 0.02 < v.delta_t ∧ v.fps < 50 := by
  refine ⟨V0, calcVals_I0, ?_, ?_⟩
  · show (0.02 : ℝ) < dtv
    linarith [dtv_bounds.1]
  · show fpsv < (50 : ℝ)
    linarith [fpsv_bounds.2]

/-- C6 (amended): at the single-jet default scenario the run succeeds
with U0 ≈ 0.2981 m/s, Ucz0 ≈ 0.0636 m/s, Re0 ≈ 3279.5, dominant jet
Primary, delta_t ≈ 2.70·10⁻² s and fps ≈ 37. -/
theorem C6_default_scenario :
    ∃ v, calcVals I0 = .ok v ∧ v.dominant_jet = "Primary" ∧
      0.2981 < v.U0 ∧ v.U0 < 0.2982 ∧
      0.0635 < v.Ucz0 ∧ v.Ucz0 < 0.0636 ∧
      3279 < v.Re0 ∧ v.Re0 < 3280 ∧
      0.027 < v.delta_t ∧ v.delta_t < 0.0271 ∧
      36.9 < v.fps ∧ v.fps < 37.1 := by
  refine ⟨V0, calcVals_I0, rfl, ?_, ?_, ?_, ?_, ?_, ?_, ?_, ?_, ?_, ?_⟩
  · show (0.2981 : ℝ) < U0v
    exact U0v_bounds.1
  · show U0v < (0.2982 : ℝ)
    linarith [U0v_bounds.2]
  · show (0.0635 : ℝ) < Ucz0v
    exact Ucz0v_bounds.1
  · show Ucz0v < (0.0636 : ℝ)
    exact Ucz0v_bounds.2
  · show (3279 : ℝ) < Re0v
    exact Re0v_bounds.1
  · show Re0v < (3280 : ℝ)
    exact Re0v_bounds.2
  · show (0.027 : ℝ) < dtv
    exact dtv_bounds.1
  · show dtv < (0.0271 : ℝ)
    exact dtv_bounds.2
  · show (36.9 : ℝ) < fpsv
    exact fpsv_bounds.1
  · show fpsv < (37.1 : ℝ)
    exact fpsv_bounds.2

/-- C7 counterexample: with the diameter, resolution and viscosity all
negative, the claim says the call fails with a division-by-zero; in fact
every divisor is nonzero and the computation completes. -/
theorem C7_negative_inputs_succeed : ∃ v, calcVals Ineg = .ok v :=
  ⟨Vneg, calcVals_Ineg⟩

/-- C7 (amended): no validation is performed; a zero nozzle diameter or
viscosity raises division-by-zero, a zero resolution never lets the call
succeed, and the failure propagates to the caller with no recovery —
but negative values do not fail: the computation completes. -/
theorem C7_zero_fails_negative_passes :
    (∀ i : Inputs, i.D0 = 0 → calcVals i = .error .zeroDiv) ∧
    (∀ i : Inputs, i.nu = 0 → calcVals i = .error .zeroDiv) ∧
    (∀ i : Inputs, i.Ry = 0 → ∀ v, calcVals i ≠ .ok v) ∧
    (∃ v, calcVals Ineg = .ok v) := by
  refine ⟨?_, ?_, ?_, Vneg, calcVals_Ineg⟩
  · intro i h
    have h0 : 1000 * 60 * Real.pi * i.D0 ^ 2 = 0 := by
      rw [h]; ring
    unfold calcVals
    rw [ediv_zero h0, error_bind]
  · intro i h
    by_cases h1 : 1000 * 60 * Real.pi * i.D0 ^ 2 = 0
    · unfold calcVals
      rw [ediv_zero h1, error_bind]
    · by_cases h2 : i.z_fov = 0
      · unfold calcVals
        rw [ediv_ok h1, ok_bind, ediv_zero h2, error_bind]
      · unfold calcVals
        rw [ediv_ok h1, ok_bind, ediv_ok h2, ok_bind, ediv_zero h,
          error_bind]
  · intro i h v hok
    cases hd : i.dual_jet with
    | false =>
      exact (calcVals_single_inv hd hok).ryref (by rw [h, zero_mul])
    | true =>
      obtain ⟨dv, di⟩ := calcVals_dual_inv hd hok
      exact di.ryref (by rw [h, zero_mul])

/-- C7 witness: the zero cases and the negative case at the default
inputs. -/
theorem C7_zero_fails_witness :
    calcVals { I0 with D0 := 0 } = .error .zeroDiv ∧
    calcVals { I0 with nu := 0 } = .error .zeroDiv ∧
    calcVals { I0 with Ry := 0 } ≠ .ok V0 :=
  ⟨C7_zero_fails_negative_passes.1 _ rfl,
   C7_zero_fails_negative_passes.2.1 _ rfl,
   C7_zero_fails_negative_passes.2.2.1 _ rfl V0⟩

/-- C8: with report generation off, the returned dict, the summary up to
its timestamp field, and the (absent) written path are all independent of
the two wall-clock readings: the clock never reaches any returned numeric
field. -/
theorem C8_clock_independence (i : Inputs) (hg : i.generate_report = false)
    (t1 s1 t2 s2 : String) :
    (calculate_camera_recording t1 s1 i).map (fun o => o.1) =
      (calculate_camera_recording t2 s2 i).map (fun o => o.1) ∧
    (calculate_camera_recording t1 s1 i).map
        (fun o => { o.2.1 with now := "" }) =
      (calculate_camera_recording t2 s2 i).map
        (fun o => { o.2.1 with now := "" }) ∧
    (calculate_camera_recording t1 s1 i).map (fun o => o.2.2) =
      (calculate_camera_recording t2 s2 i).map (fun o => o.2.2) := by
  cases hv : calcVals i with
  | error e =>
    refine ⟨?_, ?_, ?_⟩ <;> simp [calculate_camera_recording, hv, map_error_eq]
  | ok v =>
    refine ⟨?_, ?_, ?_⟩ <;>
      simp [calculate_camera_recording, hv, map_ok_eq, mkSummary, hg]

/-- C8 witness: clock independence at concrete inputs and clock
readings. -/
theorem C8_clock_independence_witness :
    (calculate_camera_recording "a" "b" Inorep).map (fun o => o.1) =
      (calculate_camera_recording "c" "d" Inorep).map (fun o => o.1) ∧
    (calculate_camera_recording "a" "b" Inorep).map
        (fun o => { o.2.1 with now := "" }) =
      (calculate_camera_recording "c" "d" Inorep).map
        (fun o => { o.2.1 with now := "" }) ∧
    (calculate_camera_recording "a" "b" Inorep).map (fun o => o.2.2) =
      (calculate_camera_recording "c" "d" Inorep).map (fun o => o.2.2) :=
  C8_clock_independence Inorep rfl "a" "b" "c" "d"

/-- C9: a zero z_fov always raises division-by-zero in the Ucz0 step,
and in dual-jet mode a zero x_fov never lets the call succeed (the Ucz1
step divides by it) — error triggers beyond the diameter, resolution and
viscosity cases. -/
theorem C9_fov_zero_fails :
    (∀ i : Inputs, i.z_fov = 0 → calcVals i = .error .zeroDiv) ∧
    (∀ i : Inputs, i.dual_jet = true → i.x_fov = some 0 →
      ∀ v, calcVals i ≠ .ok v) := by
  constructor
  · intro i h
    by_cases h1 : 1000 * 60 * Real.pi * i.D0 ^ 2 = 0
    · unfold calcVals
      rw [ediv_zero h1, error_bind]
    · unfold calcVals
      rw [ediv_ok h1, ok_bind, ediv_zero h, error_bind]
  · intro i hd hx v hok
    obtain ⟨dv, di⟩ := calcVals_dual_inv hd hok
    apply di.xfov
    have h0 : some dv.x_fov = some (0 : ℝ) := by rw [← di.xfov_eq, hx]
    exact Option.some_injective _ h0

/-- C9 witness: both field-of-view error triggers at concrete inputs. -/
theorem C9_fov_zero_fails_witness :
    calcVals { I0 with z_fov := 0 } = .error .zeroDiv ∧
    calcVals Idual0 ≠ .ok V0 :=
  ⟨C9_fov_zero_fails.1 _ rfl, C9_fov_zero_fails.2 Idual0 rfl rfl V0⟩

/-- C10: in single-jet mode the whole observable output — dict, summary
and written path — is independent of all five secondary-jet parameters,
including None values as the presentation shell supplies. -/
theorem C10_secondary_independence (now stamp : String) (i : Inputs)
    (hd : i.dual_jet = false)
    (q1 d1 li hi xf q1n d1n lin hin xfn : Option ℝ) :
    calculate_camera_recording now stamp
        { i with Q1 := q1, D1 := d1, L_I := li, H_I := hi, x_fov := xf } =
      calculate_camera_recording now stamp
        { i with Q1 := q1n, D1 := d1n, L_I := lin, H_I := hin,
                 x_fov := xfn } := by
  simp [calculate_camera_recording, calcVals, hd, mkSummary]

/-- C10 witness: the None parameters of the app call and arbitrary
secondary values give identical output at the default inputs. -/
theorem C10_secondary_independence_witness :
    calculate_camera_recording "t" "s"
        { I0 with Q1 := none, D1 := none, L_I := none, H_I := none,
                  x_fov := none } =
      calculate_camera_recording "t" "s"
        { I0 with Q1 := some 1, D1 := some 2, L_I := some 3,
                  H_I := some 4, x_fov := some 5 } :=
  C10_secondary_independence "t" "s" I0 rfl none none none none none
    (some 1) (some 2) (some 3) (some 4) (some 5)

end

end FluidExperiments
